import Mathlib

/-
Verification of the upload/result-rendering client of the startup-evaluation
platform.  The definitions below are a shallow embedding of
`src/frontend/StartupEvaluator.tsx` (namespace `StartupEval`) and of the
alternative App component `src/unnamed/part_001` (namespace `StartupEval.App`).
JS numbers appearing in the evaluation payload are modelled as rationals
(`ℚ`); integer-valued scores as `Int`; absent/null/undefined values as
`Option`; React state as an explicit record that the event handlers update.
-/

namespace StartupEval

/-- A browser `File` as the handlers see it: name, MIME type, size in bytes. -/
structure FileDesc where
  name : String
  mimeType : String
  size : Nat
deriving DecidableEq

/-- `extracted_data` of `EvaluationResult` (StartupEvaluator.tsx lines 8-18).
`key_metrics` (`Record<string, any>`, numeric in all sample data) is a
string-keyed association list of rationals. -/
structure ExtractedData where
  company_name : Option String := none
  sector : Option String := none
  arr_crore : Option ℚ := none
  team_size : Option Int := none
  stage : Option String := none
  valuation_pre_money_crore : Option ℚ := none
  revenue_model : Option String := none
  founders : List String := []
  key_metrics : List (String × ℚ) := []

/-- `sector_comparison` of `EvaluationResult` (lines 19-23). -/
structure SectorComparison where
  arr_percentile : Option ℚ := none
  performance_tier : Option String := none
  team_efficiency : Option ℚ := none

/-- `risk_assessment` of `EvaluationResult` (lines 24-29). -/
structure RiskAssessment where
  overall_risk_score : Option ℚ := none
  risk_level : Option String := none
  red_flags : List String := []
  recommendations : List String := []

/-- The `EvaluationResult` interface (lines 5-32). -/
structure EvaluationResult where
  startup_id : String
  timestamp : String
  extracted_data : ExtractedData := {}
  sector_comparison : SectorComparison := {}
  risk_assessment : RiskAssessment := {}
  investment_score : Int
  investment_recommendation : Option String := none

/-- The component's React state (the `useState` hooks, lines 35-41). -/
structure UIState where
  file : Option FileDesc := none
  evaluation : Option EvaluationResult := none
  loading : Bool := false
  error : Option String := none
  dragActive : Bool := false
  processingStep : Nat := 0
  showSampleData : Bool := true

/-- The initial state given by the `useState` initialisers. -/
def initialState : UIState := {}

/-- JS `String.prototype.startsWith`, on the character lists (exact for the
MIME strings involved). -/
def jsStartsWith (s p : String) : Bool :=
  p.data.isPrefixOf s.data

/-- JS `String.prototype.toLowerCase`, character-wise (exact on the ASCII
labels involved). -/
def jsToLower (s : String) : String :=
  ⟨s.data.map Char.toLower⟩

/-- `handleDrop` (lines 247-261): accepts `application/pdf` or any `image/*`
MIME type, storing the file and clearing the error; otherwise sets a
user-visible error and leaves the stored file unchanged. -/
def handleDrop (s : UIState) (droppedFile : FileDesc) : UIState :=
  let s := { s with dragActive := false }
  if droppedFile.mimeType = "application/pdf"
      ∨ jsStartsWith droppedFile.mimeType "image/" = true then
    { s with file := some droppedFile, error := none }
  else
    { s with error := some "Please upload a PDF or image file" }

/-- `handleFileChange` (lines 263-268): stores whatever file the picker
returned and clears the error; it performs no MIME-type check. -/
def handleFileChange (s : UIState) (f : FileDesc) : UIState :=
  { s with file := some f, error := none }

/-- `getScoreColor` (lines 271-276). -/
def getScoreColor (score : Int) : String :=
  if score ≥ 80 then "#34A853"
  else if score ≥ 60 then "#FBBC04"
  else if score ≥ 40 then "#FF9800"
  else "#EA4335"

/-- `getRiskLevelColor` (lines 278-286): a switch on
`riskLevel?.toLowerCase()` with a default branch. -/
def getRiskLevelColor (riskLevel : String) : String :=
  if jsToLower riskLevel = "low" then "#34A853"
  else if jsToLower riskLevel = "medium" then "#FBBC04"
  else if jsToLower riskLevel = "medium-high" then "#FF9800"
  else if jsToLower riskLevel = "high" then "#EA4335"
  else "#9AA0A6"

/-- JS `Number.prototype.toFixed(1)` on a rational: one digit after the
decimal point, ties rounded to the larger candidate (ECMAScript). -/
def toFixed1 (q : ℚ) : String :=
  let n : Int := ⌊q * 10 + 1/2⌋
  if n < 0 then "-" ++ toString ((-n) / 10) ++ "." ++ toString ((-n) % 10)
  else toString (n / 10) ++ "." ++ toString (n % 10)

/-- JS `Number.prototype.toFixed(2)` on a rational. -/
def toFixed2 (q : ℚ) : String :=
  let n : Int := ⌊q * 100 + 1/2⌋
  let pad : Int → String := fun m => if m < 10 then "0" ++ toString m else toString m
  if n < 0 then "-" ++ toString ((-n) / 100) ++ "." ++ pad ((-n) % 100)
  else toString (n / 100) ++ "." ++ pad (n % 100)

/-- `formatCurrency` (lines 288-291): `if (!value) return 'N/A'` — the JS
truthiness test is false for null, undefined and 0, so both an absent value
and a present 0 take the `'N/A'` branch. -/
def formatCurrency (value : Option ℚ) : String :=
  match value with
  | none => "N/A"
  | some v => if v = 0 then "N/A" else "₹" ++ toFixed1 v ++ "Cr"

/-- The score-circle render (line 517) shows `evaluation.investment_score`
unmodified. -/
def displayedInvestmentScore (e : EvaluationResult) : Int :=
  e.investment_score

/-- JS number-to-string conversion as used by bare `\x7bvalue\x7d`
interpolation; abstracted to integer printing for whole numbers and
`toFixed2` otherwise (all claims depend only on which branch renders, not
on the digits). -/
def jsNumberString (q : ℚ) : String :=
  if q.den = 1 then toString q.num else toFixed2 q

/-- The Performance metric card (line 531):
`\x7bevaluation.sector_comparison.arr_percentile || 'N/A'\x7d%` — the JS `||`
falls through to `'N/A'` on undefined and on 0. -/
def renderArrPercentile (v : Option ℚ) : String :=
  (match v with
   | none => "N/A"
   | some q => if q = 0 then "N/A" else jsNumberString q) ++ "%"

/-- The Risk metric card subtitle (line 548):
`\x7bevaluation.risk_assessment.overall_risk_score?.toFixed(1)\x7d` — when the
field is absent the optional chain yields undefined, which React renders as
empty text. -/
def renderRiskScore (v : Option ℚ) : String :=
  match v with
  | none => ""
  | some q => toFixed1 q

/-- The Revenue metric card subtitle (line 558):
`Team: \x7bevaluation.extracted_data.team_size\x7d members` — an absent field
renders as empty text. -/
def renderTeamSize (v : Option Int) : String :=
  match v with
  | none => ""
  | some n => toString n

/-- The Efficiency metric card (line 566):
`\x7bevaluation.sector_comparison.team_efficiency?.toFixed(2) || 'N/A'\x7d` —
undefined falls through `||` to `'N/A'`; a formatted string (even "0.00") is
truthy and renders as is. -/
def renderTeamEfficiency (v : Option ℚ) : String :=
  match v with
  | none => "N/A"
  | some q => let s := toFixed2 q; if s = "" then "N/A" else s

/-- The error object shape inspected by the `catch` block (lines 211-229):
`error.code`, `error.response?.status`, `error.response?.data?.detail`,
`error.message`. -/
structure AxiosError where
  code : Option String := none
  status : Option Nat := none
  detail : Option String := none
  message : Option String := none

def connectionErrorMsg : String :=
  "Cannot connect to the server. Please check if the backend is running."

def authErrorMsg : String :=
  "Authentication failed. Please check your credentials."

def payloadTooLargeMsg : String :=
  "File too large. Please upload a file smaller than 10MB."

def fallbackErrorMsg : String :=
  "Evaluation failed. Please try again."

/-- The error-message selection of the `catch` block (lines 215-227).  The
`detail` and `message` branches test JS string truthiness, so an empty
string falls through like an absent one. -/
def mapUploadError (e : AxiosError) : String :=
  if e.code = some "ECONNREFUSED" then connectionErrorMsg
  else if e.status = some 401 then authErrorMsg
  else if e.status = some 413 then payloadTooLargeMsg
  else if e.detail.getD "" ≠ "" then e.detail.getD ""
  else if e.message.getD "" ≠ "" then e.message.getD ""
  else fallbackErrorMsg

/-- The HTTP request configuration assembled by `handleFileUpload`
(lines 183-206): URL, multipart form fields (field name × file name),
headers, timeout in milliseconds. -/
structure Request where
  url : String
  formFields : List (String × String)
  headers : List (String × String)
  timeoutMs : Nat

/-- The `axios.post` call of `handleFileUpload` (lines 196-206). -/
def evaluateRequest (serverUrl : String) (f : FileDesc) : Request :=
  { url := serverUrl ++ "/evaluate",
    formFields := [("file", f.name)],
    headers := [("Authorization", "Bearer demo-token-2025"),
                ("Content-Type", "multipart/form-data")],
    timeoutMs := 120000 }

/-- One observable action of `handleFileUpload`, in program order: a state
setter, an awaited `setTimeout` sleep, or the issuing of the network
request. -/
inductive UploadEvent where
  | setLoading (b : Bool)
  | setError (e : Option String)
  | setStep (n : Nat)
  | sleepMs (n : Nat)
  | post (r : Request)
  | setEvaluation (r : Option EvaluationResult)
  | setShowSample (b : Bool)

/-- The exact sequence of observable actions performed by one run of
`handleFileUpload` (lines 172-234), given the selected file and the outcome
of the network call.  The body is sequential `async/await` code: the guard
returns early with an error when no file is selected; otherwise the
five-stage loop (`setProcessingStep(i)` then a 1000 ms awaited sleep, for
i = 1..5) runs to completion BEFORE `axios.post` is awaited; the `finally`
block then resets `loading` and `processingStep`. -/
def handleFileUploadTrace (serverUrl : String) (file : Option FileDesc)
    (outcome : Except AxiosError EvaluationResult) : List UploadEvent :=
  match file with
  | none => [.setError (some "Please select a file to upload")]
  | some f =>
    [.setLoading true, .setError none, .setStep 0]
    ++ (List.range 5).flatMap (fun i => [.setStep (i + 1), .sleepMs 1000])
    ++ [.post (evaluateRequest serverUrl f)]
    ++ (match outcome with
        | .ok r => [.setEvaluation (some r), .setShowSample false]
        | .error e => [.setError (some (mapUploadError e))])
    ++ [.setLoading false, .setStep 0]

/-- Net effect of one run of `handleFileUpload` on the component state. -/
def handleFileUploadRun (s : UIState)
    (outcome : Except AxiosError EvaluationResult) : UIState :=
  match s.file with
  | none => { s with error := some "Please select a file to upload" }
  | some _ =>
    match outcome with
    | .ok r =>
      { s with evaluation := some r, showSampleData := false,
               error := none, loading := false, processingStep := 0 }
    | .error e =>
      { s with error := some (mapUploadError e),
               loading := false, processingStep := 0 }

/-- The back-button click handler of the results section (lines 493-497):
`setEvaluation(null); setShowSampleData(true); setFile(null)` — it does not
touch the error state. -/
def backBtnClick (s : UIState) : UIState :=
  { s with evaluation := none, showSampleData := true, file := none }

/-- Render guard of the results section (line 484): shown iff an evaluation
is present. -/
def resultsSectionShown (s : UIState) : Bool :=
  s.evaluation.isSome

/-- Render guard of the error box (line 427): shown iff an error is set. -/
def errorSectionShown (s : UIState) : Bool :=
  s.error.isSome

/-- The third entry of `sampleEvaluations` (lines 122-160), whose
`timestamp` is `new Date().toISOString()` at mount time and is therefore a
parameter here.  Note `arr_crore: 0.0`. -/
def cashvisory (timestamp : String) : EvaluationResult :=
  { startup_id := "cashvisory",
    timestamp := timestamp,
    extracted_data :=
      { company_name := some "Cashvisory",
        sector := some "FinTech",
        arr_crore := some 0,
        team_size := some 5,
        stage := some "Pre-Seed",
        valuation_pre_money_crore := some 8,
        revenue_model := some "Advisory subscription, Insurance distribution",
        founders := ["Founder X", "Founder Y"],
        key_metrics := [("users_acquired", 13000), ("total_aum", 128/10),
                        ("ltv", 13000), ("cac", 1000)] },
    sector_comparison :=
      { arr_percentile := some 25,
        performance_tier := some "Early Stage",
        team_efficiency := some 0 },
    risk_assessment :=
      { overall_risk_score := some 65,
        risk_level := some "Medium-High",
        red_flags := ["🔴 No current ARR despite 13K users",
                      "🔴 Pre-revenue stage with high valuation"],
        recommendations := ["📋 Focus on user monetization strategy",
                            "📋 Validate revenue model with paying customers"] },
    investment_score := 42,
    investment_recommendation :=
      some "🟡 **PROCEED WITH CAUTION** - Early stage fintech with strong user base but no revenue. Requires clear monetization plan." }

/-- True iff a trace event is the issuing of the network request. -/
def isPostEvent : UploadEvent → Bool
  | .post _ => true
  | _ => false

/-- The positive stage number of a progress-advance event, if any (the
final `setProcessingStep(0)` reset is not a stage advance). -/
def stageStep? : UploadEvent → Option Nat
  | .setStep (n + 1) => some (n + 1)
  | _ => none

/-- Events strictly before the network request is issued. -/
def eventsBeforeRequest (t : List UploadEvent) : List UploadEvent :=
  t.takeWhile (fun e => !isPostEvent e)

/-- Events strictly after the network request is issued, i.e. while or after
the request is outstanding. -/
def eventsAfterRequest (t : List UploadEvent) : List UploadEvent :=
  (t.dropWhile (fun e => !isPostEvent e)).drop 1

/-- Whether any progress-stage advance happens once the request has been
issued. -/
def stageTickAfterRequest (t : List UploadEvent) : Bool :=
  (eventsAfterRequest t).any (fun e => (stageStep? e).isSome)

/-- The stage numbers the indicator advances through before the request is
issued. -/
def stageSequenceBeforeRequest (t : List UploadEvent) : List Nat :=
  (eventsBeforeRequest t).filterMap stageStep?

/-- The awaited sleeps before the request is issued. -/
def sleepsBeforeRequest (t : List UploadEvent) : List Nat :=
  (eventsBeforeRequest t).filterMap
    (fun e => match e with | .sleepMs n => some n | _ => none)

/-- How many network requests a trace issues. -/
def postCount (t : List UploadEvent) : Nat :=
  t.countP (fun e => isPostEvent e)

/-- Whether a request carries any `Authorization` header. -/
def hasAuthHeader (r : Request) : Bool :=
  r.headers.any (fun h => h.1 = "Authorization")

/-- A PDF file as concrete test input. -/
def pdfFile : FileDesc :=
  { name := "deck.pdf", mimeType := "application/pdf", size := 1048576 }

/-- A plain-text file: neither `application/pdf` nor an `image/*` type. -/
def textFile : FileDesc :=
  { name := "notes.txt", mimeType := "text/plain", size := 2048 }

end StartupEval

namespace StartupEval.App

/-- Backend URL constant of `src/unnamed/part_001` (line 47). -/
def BACKEND_URL : String :=
  "https://startup-evaluator-backend-166437193095.asia-south1.run.app"

/-- A per-category score with details (part_001 lines 10-29). -/
structure ScoreDetail where
  score : Int
  details : String

/-- `peer_comparison` (part_001 lines 30-33). -/
structure PeerComparison where
  sector_avg : ℚ
  vs_avg : String

/-- The `EvaluationResult` interface of part_001 (lines 5-37). -/
structure AppEvaluationResult where
  startup_id : String
  overall_score : Int
  recommendation : String
  confidence_level : String
  financial_health : ScoreDetail
  team_quality : ScoreDetail
  market_opportunity : ScoreDetail
  product_traction : ScoreDetail
  risk_assessment : ScoreDetail
  peer_comparison : PeerComparison
  realtime_status : String
  error : Option String := none
  raw_analysis : String

/-- The App component's React state (part_001 lines 40-44). -/
structure AppState where
  file : Option FileDesc := none
  evaluation : Option AppEvaluationResult := none
  loading : Bool := false
  error : Option String := none
  dragActive : Bool := false

/-- part_001 `handleDrop` (lines 59-73): accepts only `application/pdf`. -/
def handleDrop (s : AppState) (droppedFile : FileDesc) : AppState :=
  let s := { s with dragActive := false }
  if droppedFile.mimeType = "application/pdf" then
    { s with file := some droppedFile, error := none }
  else
    { s with error := some "Please upload a PDF file only." }

/-- part_001 `handleFileSelect` (lines 75-85): accepts only
`application/pdf`, rejecting everything else with an error. -/
def handleFileSelect (s : AppState) (selectedFile : FileDesc) : AppState :=
  if selectedFile.mimeType = "application/pdf" then
    { s with file := some selectedFile, error := none }
  else
    { s with error := some "Please upload a PDF file only." }

/-- The `axios.post` call of part_001 `handleUpload` (lines 100-105): one
multipart `file` field, a multipart content-type header, a 120000 ms
timeout — and no `Authorization` header. -/
def evaluateStartupRequest (f : FileDesc) : Request :=
  { url := BACKEND_URL ++ "/evaluate-startup",
    formFields := [("file", f.name)],
    headers := [("Content-Type", "multipart/form-data")],
    timeoutMs := 120000 }

/-- part_001 `resetUpload` (lines 116-123): clears file, evaluation and
error (the DOM input-value reset has no counterpart in this state model). -/
def resetUpload (s : AppState) : AppState :=
  { s with file := none, evaluation := none, error := none }

/-- part_001 `getScoreColor` (lines 125-129): three bands. -/
def getScoreColor (score : Int) : String :=
  if score ≥ 80 then "#4CAF50"
  else if score ≥ 60 then "#FF9800"
  else "#F44336"

end StartupEval.App

namespace StartupEval

/-- Claim C1: the claim says every selection with a non-PDF, non-image MIME
type is rejected with an error and not stored, on both the drag-and-drop and
the file-picker path.  The code violates this on the file-picker path:
`handleFileChange` stores a `text/plain` file and clears the error, with no
MIME check, while `handleDrop` rejects the very same file — contradicting
the component's own accept attribute and its "PDF, JPEG, PNG files" UI
copy. -/
theorem c1_file_picker_stores_unsupported_file :
    textFile.mimeType ≠ "application/pdf"
      ∧ jsStartsWith textFile.mimeType "image/" = false
      ∧ (handleFileChange initialState textFile).file = some textFile
      ∧ (handleFileChange initialState textFile).error = none
      ∧ (handleDrop initialState textFile).file = none
      ∧ (handleDrop initialState textFile).error
          = some "Please upload a PDF or image file" := by
  exact ⟨by decide, by decide, rfl, rfl, rfl, rfl⟩

/-- Claim C2 counterexample: the claim says the stage timer and the network
call run concurrently, the indicator cycling while the request is
outstanding.  On a concrete run (a PDF file, a failing request) the trace of
`handleFileUpload` does issue exactly one request, yet no stage advance
occurs after the request is issued: the whole five-stage sequence runs
before the `axios.post`. -/
theorem c2_no_stage_tick_while_request_outstanding :
    postCount
        (handleFileUploadTrace "http://localhost:8080" (some pdfFile)
          (.error {})) = 1
      ∧ stageTickAfterRequest
        (handleFileUploadTrace "http://localhost:8080" (some pdfFile)
          (.error {})) = false := by
  exact ⟨rfl, rfl⟩

/-- Claim C2 (amended): on every run of `handleFileUpload` with a selected
file, the progress indicator advances through the five stages 1..5, each
followed by a constant 1000 ms awaited sleep, strictly BEFORE the network
request is issued; the stage timer and the network call are sequential, not
concurrent, and no stage advance happens while the request is
outstanding. -/
theorem c2_stage_timer_runs_before_request (serverUrl : String) (f : FileDesc)
    (outcome : Except AxiosError EvaluationResult) :
    stageSequenceBeforeRequest
        (handleFileUploadTrace serverUrl (some f) outcome) = [1, 2, 3, 4, 5]
      ∧ sleepsBeforeRequest (handleFileUploadTrace serverUrl (some f) outcome)
          = [1000, 1000, 1000, 1000, 1000]
      ∧ stageTickAfterRequest
          (handleFileUploadTrace serverUrl (some f) outcome) = false := by
  cases outcome <;> exact ⟨rfl, rfl, rfl⟩

/-- A successful response whose `investment_score` is 150, outside [0,100]. -/
def outOfRangeEval : EvaluationResult :=
  { startup_id := "out-of-range", timestamp := "t0", investment_score := 150 }

/-- Claim C3 counterexample: the claim says the rendered score is clamped to
[0,100] and the color comes from exactly three bands (≥80, 60-79, <60).
Neither holds: a response with score 150 renders as 150, and the two scores
45 and 30 — both below 60 — get two different colors, because the code has a
fourth band at 40. -/
theorem c3_not_three_bands_not_clamped :
    displayedInvestmentScore outOfRangeEval = 150
      ∧ ¬ displayedInvestmentScore outOfRangeEval ≤ 100
      ∧ getScoreColor 45 = "#FF9800"
      ∧ getScoreColor 30 = "#EA4335"
      ∧ getScoreColor 45 ≠ getScoreColor 30 := by
  refine ⟨rfl, by decide, by decide, by decide, by decide⟩

/-- Claim C3 (amended): for every successful response the rendered score
value is the raw `investment_score`, with no clamping, and `getScoreColor`
selects exactly one of FOUR color bands: ≥80, 60-79, 40-59, and <40. -/
theorem c3_score_renders_raw_with_four_bands (e : EvaluationResult) :
    displayedInvestmentScore e = e.investment_score
      ∧ ((80 ≤ e.investment_score
            ∧ getScoreColor e.investment_score = "#34A853")
        ∨ (60 ≤ e.investment_score ∧ e.investment_score < 80
            ∧ getScoreColor e.investment_score = "#FBBC04")
        ∨ (40 ≤ e.investment_score ∧ e.investment_score < 60
            ∧ getScoreColor e.investment_score = "#FF9800")
        ∨ (e.investment_score < 40
            ∧ getScoreColor e.investment_score = "#EA4335")) := by
  refine ⟨rfl, ?_⟩
  simp only [getScoreColor]
  split_ifs with h1 h2 h3
  · exact Or.inl ⟨h1, rfl⟩
  · exact Or.inr (Or.inl ⟨h2, by omega, rfl⟩)
  · exact Or.inr (Or.inr (Or.inl ⟨h3, by omega, rfl⟩))
  · exact Or.inr (Or.inr (Or.inr ⟨by omega, rfl⟩))

/-- A reachable state showing both a result and an error (a failure after a
result was displayed leaves the result in place, see C10). -/
def resultWithErrorState : UIState :=
  { initialState with
      file := some pdfFile,
      evaluation := some (cashvisory "t0"),
      showSampleData := false,
      error := some fallbackErrorMsg }

/-- Claim C4 counterexample: the claim says reset clears all three of file,
result and error.  The back-button handler clears file and result but never
touches the error, so in a state with a displayed result and a set error the
error survives the reset and its box is still rendered on the selection
view. -/
theorem c4_back_button_leaves_error :
    resultsSectionShown resultWithErrorState = true
      ∧ (backBtnClick resultWithErrorState).error = some fallbackErrorMsg
      ∧ (backBtnClick resultWithErrorState).error ≠ none
      ∧ errorSectionShown (backBtnClick resultWithErrorState) = true := by
  exact ⟨rfl, rfl, by simp [backBtnClick, resultWithErrorState], rfl⟩

/-- Claim C4 (amended): the back button of `StartupEvaluator` clears the
selected file and the evaluation and restores the sample view, but leaves
the error state exactly as it was; part_001's `resetUpload` does clear all
three of file, evaluation and error. -/
theorem c4_reset_clears_file_and_result (s : UIState) (a : App.AppState) :
    (backBtnClick s).file = none
      ∧ (backBtnClick s).evaluation = none
      ∧ (backBtnClick s).showSampleData = true
      ∧ (backBtnClick s).error = s.error
      ∧ (App.resetUpload a).file = none
      ∧ (App.resetUpload a).evaluation = none
      ∧ (App.resetUpload a).error = none := by
  exact ⟨rfl, rfl, rfl, rfl, rfl, rfl, rfl⟩

/-- Claim C5: `getRiskLevelColor` is a total deterministic mapping on
arbitrary strings: its value is always one of the five fixed colors, each
known label maps case-insensitively to its fixed color, and every
unrecognized value maps to the default neutral color. -/
theorem c5_risk_badge_color_total (s : String) :
    getRiskLevelColor s
        ∈ (["#34A853", "#FBBC04", "#FF9800", "#EA4335", "#9AA0A6"] :
            List String)
      ∧ (jsToLower s = "low" → getRiskLevelColor s = "#34A853")
      ∧ (jsToLower s = "medium" → getRiskLevelColor s = "#FBBC04")
      ∧ (jsToLower s = "medium-high" → getRiskLevelColor s = "#FF9800")
      ∧ (jsToLower s = "high" → getRiskLevelColor s = "#EA4335")
      ∧ (jsToLower s ≠ "low" → jsToLower s ≠ "medium" →
          jsToLower s ≠ "medium-high" → jsToLower s ≠ "high" →
          getRiskLevelColor s = "#9AA0A6") := by
  simp only [getRiskLevelColor]
  split_ifs with h1 h2 h3 h4 <;> simp_all

/-- Witness for C5 at concrete inputs: the mixed-case known label
"Medium-High" gets its fixed color and the unknown label "Critical" gets the
neutral default. -/
theorem c5_risk_badge_color_total_witness :
    getRiskLevelColor "Medium-High" = "#FF9800"
      ∧ getRiskLevelColor "Critical" = "#9AA0A6" :=
  ⟨(c5_risk_badge_color_total "Medium-High").2.2.2.1 (by decide),
   (c5_risk_badge_color_total "Critical").2.2.2.2.2 (by decide) (by decide)
     (by decide) (by decide)⟩

/-- Claim C6 counterexample: the claim says any failure other than
ECONNREFUSED / 401 / 413 / a structured detail maps to THE fallback message.
It does not: a failure carrying only an `error.message` (here axios's
generic "Network Error") surfaces that message, not the fallback. -/
theorem c6_message_used_instead_of_fallback :
    mapUploadError { message := some "Network Error" } = "Network Error"
      ∧ mapUploadError { message := some "Network Error" }
          ≠ fallbackErrorMsg := by
  refine ⟨rfl, by decide⟩

/-- Claim C6 (amended): the catch block picks the message by priority:
connectivity refusal (ECONNREFUSED), HTTP 401 and HTTP 413 map to three
pairwise distinct fixed messages; otherwise a nonempty `detail` string from
the response body is surfaced verbatim; otherwise a nonempty `error.message`
is used; the fixed fallback message appears only when none of these is
available. -/
theorem c6_error_message_priority (e : AxiosError) :
    (connectionErrorMsg ≠ authErrorMsg
        ∧ connectionErrorMsg ≠ payloadTooLargeMsg
        ∧ authErrorMsg ≠ payloadTooLargeMsg)
      ∧ (e.code = some "ECONNREFUSED" → mapUploadError e = connectionErrorMsg)
      ∧ (e.code ≠ some "ECONNREFUSED" → e.status = some 401 →
          mapUploadError e = authErrorMsg)
      ∧ (e.code ≠ some "ECONNREFUSED" → e.status ≠ some 401 →
          e.status = some 413 → mapUploadError e = payloadTooLargeMsg)
      ∧ (e.code ≠ some "ECONNREFUSED" → e.status ≠ some 401 →
          e.status ≠ some 413 → e.detail.getD "" ≠ "" →
          mapUploadError e = e.detail.getD "")
      ∧ (e.code ≠ some "ECONNREFUSED" → e.status ≠ some 401 →
          e.status ≠ some 413 → e.detail.getD "" = "" →
          e.message.getD "" ≠ "" → mapUploadError e = e.message.getD "")
      ∧ (e.code ≠ some "ECONNREFUSED" → e.status ≠ some 401 →
          e.status ≠ some 413 → e.detail.getD "" = "" →
          e.message.getD "" = "" → mapUploadError e = fallbackErrorMsg) := by
  refine ⟨⟨by decide, by decide, by decide⟩, ?_⟩
  simp only [mapUploadError]
  split_ifs with h1 h2 h3 h4 h5 <;> simp_all

/-- Witness for C6 at concrete errors: a 401 response maps to the
authentication message and a structured detail is surfaced verbatim. -/
theorem c6_error_message_priority_witness :
    mapUploadError { status := some 401 } = authErrorMsg
      ∧ mapUploadError { detail := some "Unsupported file" }
          = "Unsupported file" :=
  ⟨(c6_error_message_priority { status := some 401 }).2.2.1 (by decide) rfl,
   (c6_error_message_priority { detail := some "Unsupported file" }).2.2.2.2.1
     (by decide) (by decide) (by decide) (by decide)⟩

/-- Claim C7 counterexample: the claim says every absent numeric field
renders as an 'N/A' placeholder.  The risk-score subtitle and the team-size
subtitle render an absent value as empty text instead. -/
theorem c7_absent_risk_score_renders_empty :
    renderRiskScore none = ""
      ∧ renderRiskScore none ≠ "N/A"
      ∧ renderTeamSize none = ""
      ∧ renderTeamSize none ≠ "N/A" := by
  exact ⟨rfl, by decide, rfl, by decide⟩

/-- Claim C7 (amended): absent `arr_crore` and `team_efficiency` render as
"N/A" and absent `arr_percentile` renders as "N/A%", while absent
`overall_risk_score` and `team_size` render as empty text; no absent numeric
field renders as a zero value. -/
theorem c7_absent_numeric_rendering :
    formatCurrency none = "N/A"
      ∧ renderTeamEfficiency none = "N/A"
      ∧ renderArrPercentile none = "N/A%"
      ∧ renderRiskScore none = ""
      ∧ renderTeamSize none = ""
      ∧ formatCurrency none ≠ "₹0.0Cr"
      ∧ renderTeamEfficiency none ≠ "0.00"
      ∧ renderArrPercentile none ≠ "0%"
      ∧ renderRiskScore none ≠ "0.0"
      ∧ renderTeamSize none ≠ "0" := by
  refine ⟨rfl, rfl, rfl, rfl, rfl, by decide, by decide, by decide,
    by decide, by decide⟩

/-- Claim C8 counterexample: the claim says every submit carries a bearer
credential.  The part_001 App component's upload request carries the file as
its single multipart field with the 120 s timeout, but sends no
`Authorization` header at all. -/
theorem c8_app_request_lacks_bearer :
    (App.evaluateStartupRequest pdfFile).formFields = [("file", "deck.pdf")]
      ∧ (App.evaluateStartupRequest pdfFile).timeoutMs = 120000
      ∧ hasAuthHeader (App.evaluateStartupRequest pdfFile) = false := by
  exact ⟨rfl, rfl, rfl⟩

/-- Claim C8 (amended): a submit with a selected file issues exactly one
request and one without a file issues none; the request carries the file as
the single multipart field named `file` and is abandoned after the fixed
120000 ms (120 s) timeout; the `StartupEvaluator` request carries the
bearer credential `Bearer demo-token-2025`, while the part_001 App request
sends no Authorization header. -/
theorem c8_single_request_bearer_timeout (serverUrl : String) (f : FileDesc)
    (outcome : Except AxiosError EvaluationResult) :
    postCount (handleFileUploadTrace serverUrl (some f) outcome) = 1
      ∧ postCount (handleFileUploadTrace serverUrl none outcome) = 0
      ∧ (evaluateRequest serverUrl f).formFields = [("file", f.name)]
      ∧ ("Authorization", "Bearer demo-token-2025")
          ∈ (evaluateRequest serverUrl f).headers
      ∧ (evaluateRequest serverUrl f).timeoutMs = 120000
      ∧ (App.evaluateStartupRequest f).formFields = [("file", f.name)]
      ∧ (App.evaluateStartupRequest f).timeoutMs = 120000
      ∧ hasAuthHeader (App.evaluateStartupRequest f) = false := by
  cases outcome <;>
    exact ⟨rfl, rfl, rfl, List.mem_cons_self _ _, rfl, rfl, rfl, rfl⟩

/-- Claim C9: `formatCurrency` maps a present 0 to the same "N/A" as an
absent value, so the rendered ARR of the cashvisory sample (whose
`arr_crore` is 0.0) is indistinguishable from a missing ARR. -/
theorem c9_zero_arr_renders_as_na (timestamp : String) :
    formatCurrency (some 0) = "N/A"
      ∧ formatCurrency (some 0) = formatCurrency none
      ∧ (cashvisory timestamp).extracted_data.arr_crore = some 0
      ∧ formatCurrency ((cashvisory timestamp).extracted_data.arr_crore)
          = formatCurrency none := by
  exact ⟨by decide, by decide, rfl,
    (by decide : formatCurrency (some 0) = formatCurrency none)⟩

/-- Claim C10: a failed submission leaves the stored evaluation (and the
selected file and the sample-data flag) unchanged, modifying only the
error, loading and processing-step state; hence a previously displayed
evaluation stays rendered alongside the new error message. -/
theorem c10_failure_preserves_evaluation (s : UIState) (e : AxiosError)
    (h : s.file ≠ none) :
    (handleFileUploadRun s (.error e)).evaluation = s.evaluation
      ∧ (handleFileUploadRun s (.error e)).file = s.file
      ∧ (handleFileUploadRun s (.error e)).showSampleData = s.showSampleData
      ∧ (handleFileUploadRun s (.error e)).loading = false
      ∧ (handleFileUploadRun s (.error e)).processingStep = 0
      ∧ (handleFileUploadRun s (.error e)).error = some (mapUploadError e)
      ∧ resultsSectionShown (handleFileUploadRun s (.error e))
          = resultsSectionShown s
      ∧ errorSectionShown (handleFileUploadRun s (.error e)) = true := by
  rcases hf : s.file with _ | f
  · exact absurd hf h
  · simp [handleFileUploadRun, hf, resultsSectionShown, errorSectionShown]

/-- Witness for C10 at a concrete state: a state displaying the cashvisory
result whose re-submission fails still shows that same evaluation. -/
theorem c10_failure_preserves_evaluation_witness :
    (resultWithErrorState.file ≠ none)
      ∧ (handleFileUploadRun resultWithErrorState
            (.error {})).evaluation = resultWithErrorState.evaluation :=
  ⟨by simp [resultWithErrorState, initialState],
   (c10_failure_preserves_evaluation resultWithErrorState {}
      (by simp [resultWithErrorState, initialState])).1⟩

end StartupEval
